import Mathlib

/-!
Verification of the AI generation orchestration layer of the student travel
planner (`src/app1.py`).

The embedding covers the two core operations:

* `generate_student_itinerary` — the structured generator with bounded
  exponential-backoff retry (`app1.py` lines 59-109).  The Gemini provider and
  the Python `json.loads` decoder are modelled together as an environment
  `env : Nat → Attempt` giving, for each 0-based attempt index, the observable
  outcome of that attempt: a transport-level exception, a JSON decode failure,
  or a successfully decoded JSON value.
* the chat turn of `render_chat_page` (`app1.py` lines 304-374): the
  append-only conversation log, the streamed-chunk accumulator and the
  two-append-per-turn discipline.

Python values decoded from JSON are modelled by the inductive `Json`;
`Json.null` models the Python value `None`, so a function that returns
Python `None` returns `Json.null` here.
-/

/-- A JSON value as produced by Python's `json.loads`; `null` doubles as the
Python value `None`. Numbers are modelled as integers (sufficient for the
cost fields the claims mention). -/
inductive Json where
  | null
  | bool (b : Bool)
  | num (n : Int)
  | str (s : String)
  | arr (elems : List Json)
  | obj (fields : List (String × Json))

/-- The observable outcome of one provider attempt inside the retry loop of
`generate_student_itinerary`:
* `transport e` — `GEMINI_CLIENT.models.generate_content` raised an exception
  whose string form is `e` (the outer `except Exception` at line 102);
* `decodeFail e` — the call returned text, but `json.loads(response.text)`
  raised `json.JSONDecodeError` with details `e` (line 99);
* `decoded v` — `json.loads(response.text)` returned the value `v`. -/
inductive Attempt where
  | transport (e : String)
  | decodeFail (e : String)
  | decoded (v : Json)

/-- `MAX_RETRIES = 5` (`app1.py` line 16). -/
def MAX_RETRIES : Nat := 5

/-- `INITIAL_DELAY = 1` (`app1.py` line 17), in seconds. -/
def INITIAL_DELAY : Nat := 1

/-- The success status string returned at line 98. -/
def successMsg : String := "Itinerary generated successfully!"

/-- The status string returned at line 62 when `GEMINI_CLIENT` is `None`. -/
def configErrMsg : String := "Error: Gemini client is not initialized. Check API Key."

/-- The exhaustion status built at line 109 around the last recorded error. -/
def exhaustMsg (lastError : String) : String :=
  "Failed to generate itinerary after multiple retries. Last known error: " ++ lastError

/-- The `last_error` string recorded for a failed attempt with 0-based index
`i` (lines 100 and 103; the f-strings interpolate `attempt+1`). For a decoded
attempt no error is recorded; that case is unreachable where this is used. -/
def attemptErrorMsg (i : Nat) : Attempt → String
  | .transport e =>
      "Gemini API connection error (Attempt " ++ toString (i + 1) ++ "): " ++ e
  | .decodeFail e =>
      "AI response format error (Attempt " ++ toString (i + 1) ++
        "): Failed to parse JSON response. Details: " ++ e
  | .decoded _ => ""

/-- The observable result of one call to `generate_student_itinerary`:
the returned pair (status string, itinerary value — `Json.null` for Python
`None`), plus the trace of `time.sleep` delays performed (in order) and the
number of provider attempts actually made. -/
structure GenTrace where
  status : String
  itinerary : Json
  delays : List Nat
  attemptsMade : Nat

/-- Bookkeeping after a failed attempt with 0-based index `attempt`: the
current iteration counts as one more provider attempt, and when
`attempt < MAX_RETRIES - 1` the loop sleeps `INITIAL_DELAY * 2 ^ attempt`
(lines 105-107) before whatever the remaining iterations produce (`rest`). -/
def runGenFail (attempt : Nat) (rest : GenTrace) : GenTrace :=
  if attempt < MAX_RETRIES - 1 then
    { rest with delays := INITIAL_DELAY * 2 ^ attempt :: rest.delays,
                attemptsMade := rest.attemptsMade + 1 }
  else
    { rest with attemptsMade := rest.attemptsMade + 1 }

/-- The body of the `for attempt in range(MAX_RETRIES)` loop (lines 88-107).
`attempt` is the current 0-based index, `fuel` the number of loop iterations
left (`MAX_RETRIES - attempt` at the top-level call), `lastError` the current
`last_error`. On a decoded response the function returns success immediately
(line 98); on either failure kind it records the error and continues through
`runGenFail`; when the loop ends it returns the exhaustion status with
`last_error` and `None` (line 109). -/
def runGen (env : Nat → Attempt) : Nat → Nat → String → GenTrace
  | _, 0, lastError =>
      { status := exhaustMsg lastError, itinerary := .null, delays := [], attemptsMade := 0 }
  | attempt, fuel + 1, _ =>
      match env attempt with
      | .decoded v =>
          { status := successMsg, itinerary := v, delays := [], attemptsMade := 1 }
      | .decodeFail e =>
          runGenFail attempt
            (runGen env (attempt + 1) fuel (attemptErrorMsg attempt (.decodeFail e)))
      | .transport e =>
          runGenFail attempt
            (runGen env (attempt + 1) fuel (attemptErrorMsg attempt (.transport e)))

/-- `generate_student_itinerary` (lines 59-109). `clientConfigured` models
whether `GEMINI_CLIENT` is non-`None` (the guard at lines 61-62); `env` gives
the outcome of each provider attempt. The returned pair is `(status,
itinerary)`; `itinerary = Json.null` models returning Python `None`. -/
def generate_student_itinerary (clientConfigured : Bool) (env : Nat → Attempt) : GenTrace :=
  if clientConfigured then
    runGen env 0 MAX_RETRIES "Unknown error occurred before first API call."
  else
    { status := configErrMsg, itinerary := .null, delays := [], attemptsMade := 0 }

/-- An attempt outcome that does not decode (transport failure or JSON parse
failure) — exactly the outcomes the loop retries. -/
def Attempt.isFailure : Attempt → Bool
  | .transport _ => true
  | .decodeFail _ => true
  | .decoded _ => false

example :
    generate_student_itinerary true (fun _ => .decoded (.arr [])) =
      { status := successMsg, itinerary := .arr [], delays := [], attemptsMade := 1 } := rfl

example :
    generate_student_itinerary true (fun _ => .transport "boom") =
      { status := exhaustMsg (attemptErrorMsg 4 (.transport "boom")),
        itinerary := .null, delays := [1, 2, 4, 8], attemptsMade := 5 } := rfl

example :
    generate_student_itinerary true
        (fun i => if i < 2 then .decodeFail "bad" else .decoded .null) =
      { status := successMsg, itinerary := .null, delays := [1, 2], attemptsMade := 3 } := rfl

example :
    generate_student_itinerary false (fun _ => .decoded (.arr [])) =
      { status := configErrMsg, itinerary := .null, delays := [], attemptsMade := 0 } := rfl

/-! ## Chat turn model (`render_chat_page`, `app1.py` lines 304-374) -/

/-- A chat message role as stored in `st.session_state["messages"]`: the code
only ever constructs `"user"` and `"model"` (the Gemini API name for the
assistant role). -/
inductive Role where
  | user
  | model
deriving DecidableEq, Repr

/-- One entry of the conversation log: a dict with `role` and `content`
(lines 316-317, 346, 369, 374). -/
structure ChatMessage where
  role : Role
  content : String
deriving DecidableEq, Repr

/-- Python truthiness of `chunk.text` — the filter `if chunk.text` at line
366 keeps a chunk exactly when its text is neither `None` nor `""`. -/
def chunkHasText : Option String → Bool
  | none => false
  | some s => !(s = "")

/-- The texts kept by the generator `(chunk.text for chunk in response_stream
if chunk.text)` (line 366), in arrival order. -/
def streamTexts : List (Option String) → List String
  | [] => []
  | c :: rest =>
      match c with
      | some s => if s = "" then streamTexts rest else s :: streamTexts rest
      | none => streamTexts rest

/-- `st.write_stream` applied to a stream of string chunks: it forwards each
chunk to the display as it arrives and returns the accumulated concatenation
(line 366), built left to right from the empty accumulator. -/
def st_write_stream (texts : List String) : String :=
  texts.foldl (fun acc t => acc ++ t) ""

/-- The full assistant text produced from a stream of raw chunks: filter by
truthiness, then accumulate in arrival order. -/
def full_response (chunks : List (Option String)) : String :=
  st_write_stream (streamTexts chunks)

/-- The outcome of the streaming call of one chat turn:
* `ok chunks` — `generate_content_stream` succeeded and the stream yielded
  `chunks` to completion;
* `err chunksBeforeFailure e` — the call or the stream raised an exception
  with string form `e` (before the first chunk or mid-stream); whatever was
  yielded before the failure is discarded by the `except` handler at
  lines 371-374, which only records the error message. -/
inductive StreamResult where
  | ok (chunks : List (Option String))
  | err (chunksBeforeFailure : List (Option String)) (e : String)

/-- The error text built at line 372. -/
def chatErrorMsg (e : String) : String := "An error occurred: " ++ e

/-- One chat turn after the user submitted `userText` (lines 344-374): the
user message is appended to the log immediately (line 346); then the
streaming call runs and exactly one `model`-role message is appended — the
accumulated stream text on success (line 369) or the error description on
failure (line 374). -/
def sendChatTurn (log : List ChatMessage) (userText : String)
    (stream : StreamResult) : List ChatMessage :=
  let log1 := log ++ [{ role := .user, content := userText }]
  match stream with
  | .ok chunks => log1 ++ [{ role := .model, content := full_response chunks }]
  | .err _ e => log1 ++ [{ role := .model, content := chatErrorMsg e }]

/-- The greeting seeding the conversation log (lines 315-318). -/
def greeting : ChatMessage :=
  { role := .model,
    content := "Hello! I\x27m a helpful AI assistant. How can I help you plan your next budget trip or answer a general question?" }

/-- The log at session start: exactly the greeting (lines 315-318). -/
def initialLog : List ChatMessage := [greeting]

/-- The conversation logs reachable in a session: the seeded log, grown only
by whole chat turns (the only code that mutates `st.session_state.messages`
is the seeding at lines 315-318 and the appends at lines 346, 369, 374). -/
inductive ReachableLog : List ChatMessage → Prop where
  | init : ReachableLog initialLog
  | turn {log : List ChatMessage} (u : String) (s : StreamResult) :
      ReachableLog log → ReachableLog (sendChatTurn log u s)

/-- The error shown by `render_chat_page` at line 311 when the client is not
configured. -/
def chatUnavailableMsg : String :=
  "🚨 Gemini Chat is unavailable. Check your API Key configuration."

/-- The observable effect of entering `render_chat_page` with a pending user
message: which error (if any) is displayed, the resulting log, and whether a
provider streaming request was submitted. With `GEMINI_CLIENT` absent the
function returns at line 312 before touching the log or the network. -/
structure ChatPageOutcome where
  shownError : Option String
  log : List ChatMessage
  requestSubmitted : Bool
deriving Repr

/-- The configuration guard of `render_chat_page` (lines 310-312) around one
chat turn: unconfigured → report unavailable, leave the log alone, submit
nothing; configured → run the turn (which submits one streaming request,
line 356). -/
def render_chat_page_turn (clientConfigured : Bool) (log : List ChatMessage)
    (userText : String) (stream : StreamResult) : ChatPageOutcome :=
  if clientConfigured then
    { shownError := none, log := sendChatTurn log userText stream, requestSubmitted := true }
  else
    { shownError := some chatUnavailableMsg, log := log, requestSubmitted := false }

example :
    sendChatTurn initialLog "hi" (.ok [some "Hel", none, some "", some "lo!"]) =
      [greeting, { role := .user, content := "hi" }, { role := .model, content := "Hello!" }] := rfl

example :
    sendChatTurn initialLog "hi" (.err [some "Hel"] "boom") =
      [greeting, { role := .user, content := "hi" },
        { role := .model, content := "An error occurred: boom" }] := rfl

/-! ## Spec-side itinerary validity

The following predicates transcribe the spec's own words (§3 data model and
§4.1 schema contract), NOT the code: the code performs no local validation,
and the refinement claims compare its behaviour against this predicate. -/

/-- Spec §4.1: a string-typed field. -/
def specIsString : Option Json → Bool
  | some (.str _) => true
  | _ => false

/-- Spec §3: a positive integer `day` field. -/
def specIsPosInt : Option Json → Bool
  | some (.num n) => decide (0 < n)
  | _ => false

/-- Spec §4.1: a non-negative numeric `estimated_cost_inr` field. -/
def specIsNonnegNum : Option Json → Bool
  | some (.num n) => decide (0 ≤ n)
  | _ => false

/-- Spec §4.1: a `plan` element requires string `time`, string `activity`
and non-negative numeric `estimated_cost_inr`. -/
def specValidActivity : Json → Bool
  | .obj fields =>
      specIsString (List.lookup "time" fields) &&
      specIsString (List.lookup "activity" fields) &&
      specIsNonnegNum (List.lookup "estimated_cost_inr" fields)
  | _ => false

/-- The `day` number of a day object, when present and numeric. -/
def specDayNumber : Json → Option Int
  | .obj fields =>
      match List.lookup "day" fields with
      | some (.num n) => some n
      | _ => none
  | _ => none

/-- Spec §4.1 and §3: a day element requires a positive integer `day`, a
string `theme`, a non-empty list `plan` of valid activities, and a string
`efficiency_tip`. -/
def specValidDay : Json → Bool
  | .obj fields =>
      specIsPosInt (List.lookup "day" fields) &&
      specIsString (List.lookup "theme" fields) &&
      (match List.lookup "plan" fields with
       | some (.arr acts) => !acts.isEmpty && acts.all specValidActivity
       | _ => false) &&
      specIsString (List.lookup "efficiency_tip" fields)
  | _ => false

/-- No integer occurs twice. -/
def specNodup : List Int → Bool
  | [] => true
  | x :: xs => !xs.contains x && specNodup xs

/-- Spec §3 Itinerary invariant: a non-empty ordered list of valid days with
pairwise distinct day numbers. -/
def specValidItinerary : Json → Bool
  | .arr days =>
      !days.isEmpty && days.all specValidDay &&
      specNodup (days.filterMap specDayNumber)
  | _ => false

/-- The assistant text a chat turn appends: accumulated stream text on
success (line 369), error description on failure (line 374). -/
def assistantText : StreamResult → String
  | .ok chunks => full_response chunks
  | .err _ e => chatErrorMsg e

/-- Reference concatenation of a list of texts in order. -/
def concatTexts : List String → String
  | [] => ""
  | t :: rest => t ++ concatTexts rest

/-- A concrete well-formed 3-day itinerary payload, as in the spec §8
scenario for `("Goa, India", 3, "beaches, food")`. -/
def goaDay (n : Int) (theme : String) : Json :=
  .obj [("day", .num n), ("theme", .str theme),
        ("plan", .arr [.obj [("time", .str "Morning"),
                             ("activity", .str "Beach walk"),
                             ("estimated_cost_inr", .num 0)]]),
        ("efficiency_tip", .str "Walk between nearby beaches.")]

/-- The 3-day Goa itinerary payload used by the first-attempt scenario. -/
def goaItinerary : Json :=
  .arr [goaDay 1 "Beaches", goaDay 2 "Food", goaDay 3 "Old Goa"]

example : specValidItinerary goaItinerary = true := rfl
example : specValidItinerary .null = false := rfl
example : specValidItinerary (.arr []) = false := rfl

/-! ## Lemmas about the retry loop -/

theorem runGenFail_status (a : Nat) (r : GenTrace) :
    (runGenFail a r).status = r.status := by
  unfold runGenFail; split <;> rfl

theorem runGenFail_itinerary (a : Nat) (r : GenTrace) :
    (runGenFail a r).itinerary = r.itinerary := by
  unfold runGenFail; split <;> rfl

theorem runGenFail_attemptsMade (a : Nat) (r : GenTrace) :
    (runGenFail a r).attemptsMade = r.attemptsMade + 1 := by
  unfold runGenFail; split <;> rfl

theorem runGenFail_delays (a : Nat) (r : GenTrace) :
    (runGenFail a r).delays =
      if a < MAX_RETRIES - 1 then INITIAL_DELAY * 2 ^ a :: r.delays else r.delays := by
  unfold runGenFail; split <;> simp_all

theorem runGen_attemptsMade_le (env : Nat → Attempt) :
    ∀ fuel attempt lastError, (runGen env attempt fuel lastError).attemptsMade ≤ fuel := by
  intro fuel
  induction fuel with
  | zero => intro attempt le; simp [runGen]
  | succ f ih =>
      intro attempt le
      simp only [runGen]
      cases h : env attempt with
      | decoded v => simp
      | decodeFail e =>
          rw [runGenFail_attemptsMade]
          exact Nat.succ_le_succ (ih _ _)
      | transport e =>
          rw [runGenFail_attemptsMade]
          exact Nat.succ_le_succ (ih _ _)

theorem runGen_attemptsMade_pos (env : Nat → Attempt)
    (fuel attempt : Nat) (lastError : String) (h : 0 < fuel) :
    1 ≤ (runGen env attempt fuel lastError).attemptsMade := by
  cases fuel with
  | zero => exact absurd h (Nat.lt_irrefl 0)
  | succ f =>
      simp only [runGen]
      cases henv : env attempt with
      | decoded v => simp
      | decodeFail e => rw [runGenFail_attemptsMade]; exact Nat.succ_le_succ (Nat.zero_le _)
      | transport e => rw [runGenFail_attemptsMade]; exact Nat.succ_le_succ (Nat.zero_le _)

theorem runGen_delays (env : Nat → Attempt) :
    ∀ fuel attempt lastError, attempt + fuel = MAX_RETRIES →
      (runGen env attempt fuel lastError).delays =
        (List.range ((runGen env attempt fuel lastError).attemptsMade - 1)).map
          (fun i => INITIAL_DELAY * 2 ^ (attempt + i)) := by
  intro fuel
  induction fuel with
  | zero => intro attempt le _; simp [runGen]
  | succ f ih =>
      intro attempt le h
      have hM : MAX_RETRIES = 5 := rfl
      simp only [runGen]
      cases henv : env attempt with
      | decoded v => simp
      | decodeFail e =>
          rw [runGenFail_delays, runGenFail_attemptsMade]
          by_cases hc : attempt < MAX_RETRIES - 1
          · rw [if_pos hc]
            have hf : 0 < f := by omega
            have hpos := runGen_attemptsMade_pos env f (attempt + 1)
              (attemptErrorMsg attempt (.decodeFail e)) hf
            set r := runGen env (attempt + 1) f (attemptErrorMsg attempt (.decodeFail e)) with hr
            obtain ⟨m, hm⟩ : ∃ m, r.attemptsMade = m + 1 :=
              ⟨r.attemptsMade - 1, by omega⟩
            have hrest := ih (attempt + 1) (attemptErrorMsg attempt (.decodeFail e)) (by omega)
            rw [← hr] at hrest
            rw [hrest, hm]
            simp only [Nat.add_sub_cancel]
            rw [List.range_succ_eq_map, List.map_cons, List.map_map]
            congr 1
            refine List.map_congr_left fun a _ => ?_
            exact congrArg (fun t => INITIAL_DELAY * 2 ^ t) (by omega)
          · rw [if_neg hc]
            have hf : f = 0 := by omega
            subst hf
            simp [runGen]
      | transport e =>
          rw [runGenFail_delays, runGenFail_attemptsMade]
          by_cases hc : attempt < MAX_RETRIES - 1
          · rw [if_pos hc]
            have hf : 0 < f := by omega
            have hpos := runGen_attemptsMade_pos env f (attempt + 1)
              (attemptErrorMsg attempt (.transport e)) hf
            set r := runGen env (attempt + 1) f (attemptErrorMsg attempt (.transport e)) with hr
            obtain ⟨m, hm⟩ : ∃ m, r.attemptsMade = m + 1 :=
              ⟨r.attemptsMade - 1, by omega⟩
            have hrest := ih (attempt + 1) (attemptErrorMsg attempt (.transport e)) (by omega)
            rw [← hr] at hrest
            rw [hrest, hm]
            simp only [Nat.add_sub_cancel]
            rw [List.range_succ_eq_map, List.map_cons, List.map_map]
            congr 1
            refine List.map_congr_left fun a _ => ?_
            exact congrArg (fun t => INITIAL_DELAY * 2 ^ t) (by omega)
          · rw [if_neg hc]
            have hf : f = 0 := by omega
            subst hf
            simp [runGen]

theorem runGen_exhaust (env : Nat → Attempt) :
    ∀ fuel attempt lastError,
      (∀ i, attempt ≤ i → i < attempt + (fuel + 1) → (env i).isFailure = true) →
      (runGen env attempt (fuel + 1) lastError).status =
        exhaustMsg (attemptErrorMsg (attempt + fuel) (env (attempt + fuel))) ∧
      (runGen env attempt (fuel + 1) lastError).itinerary = .null := by
  intro fuel
  induction fuel with
  | zero =>
      intro attempt le hfail
      have h0 : (env attempt).isFailure = true := hfail attempt (Nat.le_refl _) (by omega)
      simp only [Nat.add_zero]
      simp only [runGen]
      cases henv : env attempt with
      | decoded v => rw [henv] at h0; simp [Attempt.isFailure] at h0
      | decodeFail e =>
          rw [runGenFail_status, runGenFail_itinerary]
          exact ⟨rfl, rfl⟩
      | transport e =>
          rw [runGenFail_status, runGenFail_itinerary]
          exact ⟨rfl, rfl⟩
  | succ f ih =>
      intro attempt le hfail
      have h0 : (env attempt).isFailure = true := hfail attempt (Nat.le_refl _) (by omega)
      simp only [runGen]
      cases henv : env attempt with
      | decoded v => rw [henv] at h0; simp [Attempt.isFailure] at h0
      | decodeFail e =>
          rw [runGenFail_status, runGenFail_itinerary]
          have hrec := ih (attempt + 1) (attemptErrorMsg attempt (.decodeFail e))
            (fun i h1 h2 => hfail i (by omega) (by omega))
          rw [show attempt + (f + 1) = attempt + 1 + f by omega]
          exact hrec
      | transport e =>
          rw [runGenFail_status, runGenFail_itinerary]
          have hrec := ih (attempt + 1) (attemptErrorMsg attempt (.transport e))
            (fun i h1 h2 => hfail i (by omega) (by omega))
          rw [show attempt + (f + 1) = attempt + 1 + f by omega]
          exact hrec

theorem runGen_first_success (env : Nat → Attempt) :
    ∀ k fuel attempt lastError v,
      k < fuel → attempt + fuel ≤ MAX_RETRIES →
      (∀ i, attempt ≤ i → i < attempt + k → (env i).isFailure = true) →
      env (attempt + k) = .decoded v →
      (runGen env attempt fuel lastError).status = successMsg ∧
      (runGen env attempt fuel lastError).itinerary = v ∧
      (runGen env attempt fuel lastError).attemptsMade = k + 1 ∧
      (runGen env attempt fuel lastError).delays.length = k := by
  intro k
  induction k with
  | zero =>
      intro fuel attempt le v hk hmax hfail hv
      cases fuel with
      | zero => omega
      | succ f =>
          simp only [Nat.add_zero] at hv
          simp [runGen, hv]
  | succ k ih =>
      intro fuel attempt le v hk hmax hfail hv
      have hM : MAX_RETRIES = 5 := rfl
      cases fuel with
      | zero => omega
      | succ f =>
          have h0 : (env attempt).isFailure = true := hfail attempt (Nat.le_refl _) (by omega)
          simp only [runGen]
          cases henv : env attempt with
          | decoded w => rw [henv] at h0; simp [Attempt.isFailure] at h0
          | decodeFail e =>
              have hrec := ih f (attempt + 1) (attemptErrorMsg attempt (.decodeFail e)) v
                (by omega) (by omega)
                (fun i h1 h2 => hfail i (by omega) (by omega))
                (by rw [show attempt + 1 + k = attempt + (k + 1) by omega]; exact hv)
              have hcond : attempt < MAX_RETRIES - 1 := by omega
              rw [runGenFail_status, runGenFail_itinerary, runGenFail_attemptsMade,
                runGenFail_delays, if_pos hcond]
              refine ⟨hrec.1, hrec.2.1, ?_, ?_⟩
              · rw [hrec.2.2.1]
              · simp [hrec.2.2.2]
          | transport e =>
              have hrec := ih f (attempt + 1) (attemptErrorMsg attempt (.transport e)) v
                (by omega) (by omega)
                (fun i h1 h2 => hfail i (by omega) (by omega))
                (by rw [show attempt + 1 + k = attempt + (k + 1) by omega]; exact hv)
              have hcond : attempt < MAX_RETRIES - 1 := by omega
              rw [runGenFail_status, runGenFail_itinerary, runGenFail_attemptsMade,
                runGenFail_delays, if_pos hcond]
              refine ⟨hrec.1, hrec.2.1, ?_, ?_⟩
              · rw [hrec.2.2.1]
              · simp [hrec.2.2.2]

theorem runGen_retry_progress (env : Nat → Attempt) :
    ∀ k fuel attempt lastError,
      k + 1 < fuel →
      (∀ i, attempt ≤ i → i ≤ attempt + k → (env i).isFailure = true) →
      k + 2 ≤ (runGen env attempt fuel lastError).attemptsMade := by
  intro k
  induction k with
  | zero =>
      intro fuel attempt le hk hfail
      cases fuel with
      | zero => omega
      | succ f =>
          have h0 : (env attempt).isFailure = true := hfail attempt (Nat.le_refl _) (by omega)
          simp only [runGen]
          cases henv : env attempt with
          | decoded v => rw [henv] at h0; simp [Attempt.isFailure] at h0
          | decodeFail e =>
              rw [runGenFail_attemptsMade]
              have := runGen_attemptsMade_pos env f (attempt + 1)
                (attemptErrorMsg attempt (.decodeFail e)) (by omega)
              omega
          | transport e =>
              rw [runGenFail_attemptsMade]
              have := runGen_attemptsMade_pos env f (attempt + 1)
                (attemptErrorMsg attempt (.transport e)) (by omega)
              omega
  | succ k ih =>
      intro fuel attempt le hk hfail
      cases fuel with
      | zero => omega
      | succ f =>
          have h0 : (env attempt).isFailure = true := hfail attempt (Nat.le_refl _) (by omega)
          simp only [runGen]
          cases henv : env attempt with
          | decoded v => rw [henv] at h0; simp [Attempt.isFailure] at h0
          | decodeFail e =>
              rw [runGenFail_attemptsMade]
              have := ih f (attempt + 1) (attemptErrorMsg attempt (.decodeFail e))
                (by omega) (fun i h1 h2 => hfail i (by omega) (by omega))
              omega
          | transport e =>
              rw [runGenFail_attemptsMade]
              have := ih f (attempt + 1) (attemptErrorMsg attempt (.transport e))
                (by omega) (fun i h1 h2 => hfail i (by omega) (by omega))
              omega

theorem runGen_pattern_congr (env env' : Nat → Attempt)
    (hpat : ∀ i, (env i).isFailure = (env' i).isFailure) :
    ∀ fuel attempt lastError lastError',
      (runGen env attempt fuel lastError).attemptsMade =
        (runGen env' attempt fuel lastError').attemptsMade ∧
      (runGen env attempt fuel lastError).delays =
        (runGen env' attempt fuel lastError').delays := by
  intro fuel
  induction fuel with
  | zero => intro attempt le le'; simp [runGen]
  | succ f ih =>
      intro attempt le le'
      have hp := hpat attempt
      simp only [runGen]
      cases henv : env attempt with
      | decoded v =>
          cases henv' : env' attempt with
          | decoded w => exact ⟨rfl, rfl⟩
          | decodeFail e' => rw [henv, henv'] at hp; simp [Attempt.isFailure] at hp
          | transport e' => rw [henv, henv'] at hp; simp [Attempt.isFailure] at hp
      | decodeFail e =>
          cases henv' : env' attempt with
          | decoded w => rw [henv, henv'] at hp; simp [Attempt.isFailure] at hp
          | decodeFail e' =>
              have h := ih (attempt + 1) (attemptErrorMsg attempt (.decodeFail e))
                (attemptErrorMsg attempt (.decodeFail e'))
              rw [runGenFail_attemptsMade, runGenFail_attemptsMade,
                runGenFail_delays, runGenFail_delays, h.1, h.2]
              exact ⟨rfl, rfl⟩
          | transport e' =>
              have h := ih (attempt + 1) (attemptErrorMsg attempt (.decodeFail e))
                (attemptErrorMsg attempt (.transport e'))
              rw [runGenFail_attemptsMade, runGenFail_attemptsMade,
                runGenFail_delays, runGenFail_delays, h.1, h.2]
              exact ⟨rfl, rfl⟩
      | transport e =>
          cases henv' : env' attempt with
          | decoded w => rw [henv, henv'] at hp; simp [Attempt.isFailure] at hp
          | decodeFail e' =>
              have h := ih (attempt + 1) (attemptErrorMsg attempt (.transport e))
                (attemptErrorMsg attempt (.decodeFail e'))
              rw [runGenFail_attemptsMade, runGenFail_attemptsMade,
                runGenFail_delays, runGenFail_delays, h.1, h.2]
              exact ⟨rfl, rfl⟩
          | transport e' =>
              have h := ih (attempt + 1) (attemptErrorMsg attempt (.transport e))
                (attemptErrorMsg attempt (.transport e'))
              rw [runGenFail_attemptsMade, runGenFail_attemptsMade,
                runGenFail_delays, runGenFail_delays, h.1, h.2]
              exact ⟨rfl, rfl⟩

theorem runGen_success_or_exhaust (env : Nat → Attempt) :
    ∀ fuel attempt lastError,
      (∃ i, attempt ≤ i ∧ i < attempt + fuel ∧
        env i = .decoded (runGen env attempt fuel lastError).itinerary ∧
        (runGen env attempt fuel lastError).status = successMsg) ∨
      ((runGen env attempt fuel lastError).itinerary = .null ∧
        ∃ s, (runGen env attempt fuel lastError).status = exhaustMsg s) := by
  intro fuel
  induction fuel with
  | zero => intro attempt le; right; exact ⟨rfl, le, rfl⟩
  | succ f ih =>
      intro attempt le
      simp only [runGen]
      cases henv : env attempt with
      | decoded v =>
          left; exact ⟨attempt, Nat.le_refl _, by omega, henv, rfl⟩
      | decodeFail e =>
          rcases ih (attempt + 1) (attemptErrorMsg attempt (.decodeFail e)) with
            ⟨i, h1, h2, h3, h4⟩ | ⟨h1, s, h2⟩
          · left
            refine ⟨i, by omega, by omega, ?_, ?_⟩
            · rw [runGenFail_itinerary]; exact h3
            · rw [runGenFail_status]; exact h4
          · right
            refine ⟨?_, s, ?_⟩
            · rw [runGenFail_itinerary]; exact h1
            · rw [runGenFail_status]; exact h2
      | transport e =>
          rcases ih (attempt + 1) (attemptErrorMsg attempt (.transport e)) with
            ⟨i, h1, h2, h3, h4⟩ | ⟨h1, s, h2⟩
          · left
            refine ⟨i, by omega, by omega, ?_, ?_⟩
            · rw [runGenFail_itinerary]; exact h3
            · rw [runGenFail_status]; exact h4
          · right
            refine ⟨?_, s, ?_⟩
            · rw [runGenFail_itinerary]; exact h1
            · rw [runGenFail_status]; exact h2

/-! ## Lemmas about chunk accumulation -/

theorem foldl_append_eq_concat :
    ∀ (l : List String) (s : String),
      l.foldl (fun acc t => acc ++ t) s = s ++ concatTexts l := by
  intro l
  induction l with
  | nil => intro s; simp [concatTexts]
  | cons t rest ih =>
      intro s
      simp only [List.foldl_cons, concatTexts]
      rw [ih, String.append_assoc]

theorem streamTexts_append :
    ∀ l1 l2 : List (Option String),
      streamTexts (l1 ++ l2) = streamTexts l1 ++ streamTexts l2 := by
  intro l1 l2
  induction l1 with
  | nil => rfl
  | cons c rest ih =>
      cases c with
      | none => simpa [streamTexts] using ih
      | some s =>
          by_cases hs : s = ""
          · simp [streamTexts, hs, ih]
          · simp [streamTexts, hs, ih]

theorem concatTexts_append :
    ∀ l1 l2 : List String,
      concatTexts (l1 ++ l2) = concatTexts l1 ++ concatTexts l2 := by
  intro l1 l2
  induction l1 with
  | nil => simp [concatTexts]
  | cons t rest ih => simp [concatTexts, ih, String.append_assoc]

/-! ## Claim theorems -/

/-- C1, counterexample: with the provider response text `"null"` (which
`json.loads` decodes to `None`), `generate_student_itinerary` returns the
success status together with a payload that is not a valid Itinerary — so it
is false that every success carries a validated Itinerary. -/
theorem c1_counterexample_success_with_invalid_payload :
    (generate_student_itinerary true (fun _ => .decoded .null)).status = successMsg ∧
    specValidItinerary
      (generate_student_itinerary true (fun _ => .decoded .null)).itinerary = false :=
  ⟨rfl, rfl⟩

/-- C1 (amended): for every request, `generate_student_itinerary` returns
either the success status together with exactly the raw JSON-decoded payload
of one of the attempts (no local schema validation is applied, so the payload
may be any JSON value), or an explicit failure — the configuration error or
an exhaustion message — with no itinerary value (`None`). -/
theorem c1_amended_raw_payload_or_explicit_failure
    (cfg : Bool) (env : Nat → Attempt) :
    (∃ i, i < MAX_RETRIES ∧
      env i = .decoded (generate_student_itinerary cfg env).itinerary ∧
      (generate_student_itinerary cfg env).status = successMsg) ∨
    ((generate_student_itinerary cfg env).itinerary = .null ∧
      ((generate_student_itinerary cfg env).status = configErrMsg ∨
        ∃ s, (generate_student_itinerary cfg env).status = exhaustMsg s)) := by
  cases cfg with
  | false => right; exact ⟨rfl, Or.inl rfl⟩
  | true =>
      rcases runGen_success_or_exhaust env MAX_RETRIES 0
          "Unknown error occurred before first API call." with
        ⟨i, _, h2, h3, h4⟩ | ⟨h1, s, h2⟩
      · left; exact ⟨i, by omega, h3, h4⟩
      · right; exact ⟨h1, Or.inr ⟨s, h2⟩⟩

/-- C2, counterexample: a first response that is valid JSON but violates the
required schema (the empty list, an empty required list at the top level) is
not retried: the generator returns success after exactly 1 attempt, although
1 < MAX_RETRIES, so a schema-violating payload does not trigger attempt 2. -/
theorem c2_counterexample_schema_violation_not_retried :
    (generate_student_itinerary true (fun _ => .decoded (.arr []))).attemptsMade = 1 ∧
    (generate_student_itinerary true (fun _ => .decoded (.arr []))).status = successMsg ∧
    specValidItinerary (.arr []) = false ∧
    1 < MAX_RETRIES :=
  ⟨rfl, rfl, rfl, by decide⟩

/-- C2 (amended): a JSON parse failure (`json.JSONDecodeError`) on attempt k
with k < max triggers attempt k+1, and a transport error does the same; the
two are retried identically — the attempt count and the backoff delays
depend only on which attempts failed, not on the kind of failure. Valid JSON
that violates the schema is not a retried error (see the counterexample). -/
theorem c2_amended_parse_and_transport_retried_identically :
    (∀ env k, k + 1 < MAX_RETRIES →
      (∀ i, i ≤ k → (Attempt.isFailure (env i)) = true) →
      k + 2 ≤ (generate_student_itinerary true env).attemptsMade) ∧
    (∀ env env', (∀ i, (Attempt.isFailure (env i)) = (Attempt.isFailure (env' i))) →
      (generate_student_itinerary true env).attemptsMade =
        (generate_student_itinerary true env').attemptsMade ∧
      (generate_student_itinerary true env).delays =
        (generate_student_itinerary true env').delays) := by
  constructor
  · intro env k hk hfail
    exact runGen_retry_progress env k MAX_RETRIES 0
      "Unknown error occurred before first API call." hk
      (fun i _ h2 => hfail i (by omega))
  · intro env env' hpat
    exact runGen_pattern_congr env env' hpat MAX_RETRIES 0
      "Unknown error occurred before first API call."
      "Unknown error occurred before first API call." 

/-- Witness for the amended C2: permanent parse failures make at least a
second attempt happen, and an all-parse-failure run has the same backoff
trace as an all-transport-failure run. -/
theorem c2_amended_witness :
    0 + 2 ≤ (generate_student_itinerary true (fun _ => .decodeFail "bad json")).attemptsMade ∧
    (generate_student_itinerary true (fun _ => .decodeFail "bad json")).delays =
      (generate_student_itinerary true (fun _ => .transport "timeout")).delays :=
  ⟨c2_amended_parse_and_transport_retried_identically.1 (fun _ => .decodeFail "bad json") 0
      (by decide) (fun i _ => rfl),
    (c2_amended_parse_and_transport_retried_identically.2 (fun _ => .decodeFail "bad json")
      (fun _ => .transport "timeout") (fun i => rfl)).2⟩

/-- C3: the number of provider attempts never exceeds MAX_RETRIES (5), and
the delay trace is exactly `INITIAL_DELAY * 2 ^ i` for the 0-based gap index
i between attempt i and attempt i+1 — one delay per attempt except the last,
so no delay follows the final attempt. -/
theorem c3_retry_bound_and_exponential_backoff (cfg : Bool) (env : Nat → Attempt) :
    (generate_student_itinerary cfg env).attemptsMade ≤ MAX_RETRIES ∧
    (generate_student_itinerary cfg env).delays =
      (List.range ((generate_student_itinerary cfg env).attemptsMade - 1)).map
        (fun i => INITIAL_DELAY * 2 ^ i) := by
  cases cfg with
  | false => exact ⟨Nat.zero_le _, rfl⟩
  | true =>
      constructor
      · exact runGen_attemptsMade_le env MAX_RETRIES 0
          "Unknown error occurred before first API call."
      · have h := runGen_delays env MAX_RETRIES 0
          "Unknown error occurred before first API call." rfl
        show (runGen env 0 MAX_RETRIES "Unknown error occurred before first API call.").delays =
          (List.range ((runGen env 0 MAX_RETRIES
            "Unknown error occurred before first API call.").attemptsMade - 1)).map
            (fun i => INITIAL_DELAY * 2 ^ i)
        rw [h]
        refine List.map_congr_left fun a _ => ?_
        exact congrArg (fun t => INITIAL_DELAY * 2 ^ t) (by omega)

/-- C4: when every attempt fails, the generator returns the exhaustion
failure carrying the error description of the final attempt (0-based index
MAX_RETRIES - 1, i.e. "Attempt 5") and no itinerary; and on every run the
status is one of: the success message, the configuration-error message, or
an exhaustion message — an individual transport or decode error never
escapes on its own. -/
theorem c4_exhaustion_carries_last_error_and_escape_policy :
    (∀ env : Nat → Attempt, (∀ i, i < MAX_RETRIES → (Attempt.isFailure (env i)) = true) →
      (generate_student_itinerary true env).status =
        exhaustMsg (attemptErrorMsg (MAX_RETRIES - 1) (env (MAX_RETRIES - 1))) ∧
      (generate_student_itinerary true env).itinerary = .null) ∧
    (∀ (cfg : Bool) (env : Nat → Attempt),
      (generate_student_itinerary cfg env).status = successMsg ∨
      (generate_student_itinerary cfg env).status = configErrMsg ∨
      ∃ s, (generate_student_itinerary cfg env).status = exhaustMsg s) := by
  constructor
  · intro env hfail
    have hM : MAX_RETRIES = 5 := rfl
    exact runGen_exhaust env 4 0 "Unknown error occurred before first API call."
      (fun i _ h2 => hfail i (by omega))
  · intro cfg env
    cases cfg with
    | false => right; left; rfl
    | true =>
        rcases runGen_success_or_exhaust env MAX_RETRIES 0
            "Unknown error occurred before first API call." with
          ⟨i, _, _, _, h4⟩ | ⟨_, s, h2⟩
        · left; exact h4
        · right; right; exact ⟨s, h2⟩

/-- Witness for C4: malformed JSON on all 5 attempts yields the exhaustion
message built from the attempt-5 decode error, and no itinerary. -/
theorem c4_witness :
    (generate_student_itinerary true (fun _ => .decodeFail "not json")).status =
      exhaustMsg (attemptErrorMsg (MAX_RETRIES - 1) (.decodeFail "not json")) ∧
    (generate_student_itinerary true (fun _ => .decodeFail "not json")).itinerary = .null :=
  c4_exhaustion_carries_last_error_and_escape_policy.1
    (fun _ => .decodeFail "not json") (fun _ _ => rfl)

/-- C5: on the first attempt whose response decodes (0-based index k, all
earlier attempts failing), the generator returns that payload immediately:
success status, exactly k+1 attempts made, and exactly k backoff delays (no
delay after the successful attempt). -/
theorem c5_first_successful_decode_returns_immediately
    (env : Nat → Attempt) (k : Nat) (v : Json)
    (hk : k < MAX_RETRIES)
    (hfail : ∀ i, i < k → (Attempt.isFailure (env i)) = true)
    (hv : env k = .decoded v) :
    (generate_student_itinerary true env).status = successMsg ∧
    (generate_student_itinerary true env).itinerary = v ∧
    (generate_student_itinerary true env).attemptsMade = k + 1 ∧
    (generate_student_itinerary true env).delays.length = k :=
  runGen_first_success env k MAX_RETRIES 0
    "Unknown error occurred before first API call." v hk (Nat.le_refl _)
    (fun i _ h2 => hfail i (by omega))
    (by rw [Nat.zero_add]; exact hv)

/-- Witness for C5, the spec §8 Goa scenario: a well-formed 3-day payload on
the first attempt yields success with that payload, one attempt and zero
backoff delays; the payload is a valid 3-day itinerary with days 1, 2, 3. -/
theorem c5_witness :
    ((generate_student_itinerary true (fun _ => .decoded goaItinerary)).status = successMsg ∧
      (generate_student_itinerary true (fun _ => .decoded goaItinerary)).itinerary =
        goaItinerary ∧
      (generate_student_itinerary true (fun _ => .decoded goaItinerary)).attemptsMade = 0 + 1 ∧
      (generate_student_itinerary true
        (fun _ => .decoded goaItinerary)).delays.length = 0) ∧
    specValidItinerary goaItinerary = true :=
  ⟨c5_first_successful_decode_returns_immediately (fun _ => .decoded goaItinerary) 0
      goaItinerary (by decide) (fun i h => absurd h (Nat.not_lt_zero i)) rfl,
    rfl⟩

/-- C6: with no configured client, both orchestration operations fail fast
and make no provider call: the generator returns the configuration error
with no itinerary and zero attempts, and the chat page reports itself
unavailable, leaves the log untouched and submits no streaming request. -/
theorem c6_unconfigured_fails_fast_without_network
    (env : Nat → Attempt) (log : List ChatMessage) (u : String) (s : StreamResult) :
    (generate_student_itinerary false env).status = configErrMsg ∧
    (generate_student_itinerary false env).itinerary = .null ∧
    (generate_student_itinerary false env).attemptsMade = 0 ∧
    render_chat_page_turn false log u s =
      { shownError := some chatUnavailableMsg, log := log, requestSubmitted := false } :=
  ⟨rfl, rfl, rfl, rfl⟩

/-- C7: every chat turn that proceeds past the user-message append appends
exactly two messages: the user message first, then exactly one model-role
(assistant) message whose content is the accumulated stream text on success
and the error description on failure; so the log grows by exactly 2. -/
theorem c7_chat_turn_appends_exactly_two
    (log : List ChatMessage) (u : String) (s : StreamResult) :
    sendChatTurn log u s =
      log ++ [{ role := .user, content := u },
              { role := .model, content := assistantText s }] ∧
    (sendChatTurn log u s).length = log.length + 2 := by
  cases s with
  | ok chunks =>
      constructor
      · simp [sendChatTurn, assistantText]
      · simp [sendChatTurn]
  | err c e =>
      constructor
      · simp [sendChatTurn, assistantText]
      · simp [sendChatTurn]

/-- C8: the accumulated assistant text equals the concatenation, in arrival
order, of the texts of the truthy chunks (chunks with no text — `None` or
`""` — are skipped), and accumulation splits over concatenation of chunk
lists: accumulating `l1 ++ l2` equals accumulating `l1` and appending the
accumulation of `l2` (in particular `[c1, c2, c3]` vs `[c1, c2]` then
`[c3]`). -/
theorem c8_accumulation_order_preserving_and_splittable :
    (∀ chunks : List (Option String),
      full_response chunks = concatTexts (streamTexts chunks)) ∧
    (∀ l1 l2 : List (Option String),
      full_response (l1 ++ l2) = full_response l1 ++ full_response l2) := by
  have hfull : ∀ chunks : List (Option String),
      full_response chunks = concatTexts (streamTexts chunks) := by
    intro chunks
    unfold full_response st_write_stream
    rw [foldl_append_eq_concat, String.empty_append]
  refine ⟨hfull, fun l1 l2 => ?_⟩
  rw [hfull, hfull, hfull, streamTexts_append, concatTexts_append]

/-- C9: every reachable conversation log starts with the assistant
(model-role) greeting: the log is seeded with exactly the greeting, and chat
turns only append. -/
theorem c9_log_always_starts_with_greeting
    (log : List ChatMessage) (h : ReachableLog log) :
    log.head? = some greeting := by
  induction h with
  | init => rfl
  | turn u s _ ih =>
      cases s with
      | ok chunks => simp [sendChatTurn, ih]
      | err c e => simp [sendChatTurn, ih]

/-- Witness for C9: the seeded log itself, and the log after one turn, start
with the greeting. -/
theorem c9_witness :
    initialLog.head? = some greeting ∧
    (sendChatTurn initialLog "hi" (.ok [some "Hello!"])).head? = some greeting :=
  ⟨c9_log_always_starts_with_greeting initialLog ReachableLog.init,
    c9_log_always_starts_with_greeting _
      (ReachableLog.turn "hi" (.ok [some "Hello!"]) ReachableLog.init)⟩

/-- C10: on the first attempt whose response parses as JSON, the generator
returns exactly the raw decoded value with the success status — no local
shape validation; in particular `null` and `[]` payloads (not well-formed
itineraries) come back with the success status, including a success paired
with a `None` itinerary. -/
theorem c10_success_returns_raw_payload_without_validation
    (env : Nat → Attempt) (k : Nat) (v : Json)
    (hk : k < MAX_RETRIES)
    (hfail : ∀ i, i < k → (Attempt.isFailure (env i)) = true)
    (hv : env k = .decoded v) :
    ((generate_student_itinerary true env).status = successMsg ∧
      (generate_student_itinerary true env).itinerary = v) ∧
    ((generate_student_itinerary true (fun _ => .decoded .null)).status = successMsg ∧
      (generate_student_itinerary true (fun _ => .decoded .null)).itinerary = .null ∧
      specValidItinerary .null = false ∧
      (generate_student_itinerary true (fun _ => .decoded (.arr []))).status = successMsg ∧
      specValidItinerary (.arr []) = false) := by
  have h := runGen_first_success env k MAX_RETRIES 0
    "Unknown error occurred before first API call." v hk (Nat.le_refl _)
    (fun i _ h2 => hfail i (by omega))
    (by rw [Nat.zero_add]; exact hv)
  exact ⟨⟨h.1, h.2.1⟩, rfl, rfl, rfl, rfl, rfl⟩

/-- Witness for C10: a bare-number payload on the first attempt is returned
verbatim with the success status. -/
theorem c10_witness :
    ((generate_student_itinerary true (fun _ => .decoded (.num 7))).status = successMsg ∧
      (generate_student_itinerary true (fun _ => .decoded (.num 7))).itinerary = .num 7) ∧
    ((generate_student_itinerary true (fun _ => .decoded .null)).status = successMsg ∧
      (generate_student_itinerary true (fun _ => .decoded .null)).itinerary = .null ∧
      specValidItinerary .null = false ∧
      (generate_student_itinerary true (fun _ => .decoded (.arr []))).status = successMsg ∧
      specValidItinerary (.arr []) = false) :=
  c10_success_returns_raw_payload_without_validation (fun _ => .decoded (.num 7)) 0 (.num 7)
    (by decide) (fun i h => absurd h (Nat.not_lt_zero i)) rfl
